import Mathlib

set_option maxRecDepth 40000

/-!
Shallow embedding of the UCSB.Helper dashboard (housing_page.py, academics.py)
and proofs about its loader, filter and renderer pipeline.

Python-level string operations (str.strip, str.lower, str.title, str.split,
float conversion, pandas astype(str)) are modelled as executable functions on
Lean strings; dataframes are lists of records; pandas boolean-mask filtering
is List.filter; in-place column assignment is modelled by explicit state
passing (the value of the dataframe object before and after a block).
Fallible Python code (pd.read_csv on a malformed file, float() on a bad
numeric string, sqlite errors) is modelled with Except.
-/

/-- Python str whitespace test (str.strip default charset). -/
def isSpace (c : Char) : Bool := c.isWhitespace

/-- Kernel of Python str.strip on the character list of a string. -/
def stripChars (l : List Char) : List Char :=
  ((l.dropWhile isSpace).reverse.dropWhile isSpace).reverse

/-- Python str.strip(): remove leading and trailing whitespace. -/
def pyStrip (s : String) : String := ⟨stripChars s.data⟩

/-- Python str.lower() (ASCII-adequate for the data this app handles). -/
def pyLower (s : String) : String := ⟨s.data.map Char.toLower⟩

/-- Kernel of Python str.title(): uppercase a letter that follows a
non-letter, lowercase every other letter; the Bool tracks whether the
previous character was a letter. -/
def titleGo : Bool → List Char → List Char
  | _, [] => []
  | prev, c :: cs =>
    if c.isAlpha then
      (if prev then c.toLower else c.toUpper) :: titleGo true cs
    else
      c :: titleGo false cs

/-- Python str.title(). -/
def pyTitle (s : String) : String := ⟨titleGo false s.data⟩

/-- Kernel of Python str.split() with no argument: split on runs of
whitespace, dropping empty pieces; cur is the current word reversed. -/
def wordsGo (cur : List Char) : List Char → List String
  | [] => if cur.isEmpty then [] else [⟨cur.reverse⟩]
  | c :: cs =>
    if isSpace c then
      (if cur.isEmpty then wordsGo [] cs else ⟨cur.reverse⟩ :: wordsGo [] cs)
    else
      wordsGo (c :: cur) cs

/-- Python str.split() with no argument. -/
def pySplit (s : String) : List String := wordsGo [] s.data

/-- Python str() applied to an optional (possibly-None / SQL NULL) cell, as
pandas astype(str) does columnwise: None prints as the string None. -/
def astypeStr : Option String → String
  | none => "None"
  | some s => s

/-- Decimal digits of a string read as a natural number (digits only). -/
def digitsToNat (l : List Char) : ℕ :=
  l.foldl (fun a c => 10 * a + (c.toNat - 48)) 0

/-- The regex replace of housing_page.py line 49: keep only characters
matching the class 0-9 and the dot. -/
def stripNonNumeric (s : String) : String :=
  ⟨s.data.filter (fun c => c.isDigit || c == '.')⟩

/-- Split a character list at every dot (for Python float parsing). -/
def splitDotGo (cur : List Char) : List Char → List (List Char)
  | [] => [cur.reverse]
  | c :: cs => if c == '.' then cur.reverse :: splitDotGo [] cs else splitDotGo (c :: cur) cs

/-- Python float(t) for a string t made only of digits and dots: valid with
at most one dot and at least one digit, else a ValueError (none). -/
def pyFloatOfDigits (t : String) : Option ℚ :=
  match splitDotGo [] t.data with
  | [i] => if i.isEmpty then none else some ((digitsToNat i : ℚ))
  | [i, f] =>
    if i.isEmpty && f.isEmpty then none
    else some ((digitsToNat i : ℚ) + (digitsToNat f : ℚ) / (10 : ℚ) ^ f.length)
  | _ => none

/-- Lines 47-52 of housing_page.py for one cell: strip non-numeric
characters, an empty remainder becomes NA (ok none), otherwise astype(float)
either parses or raises ValueError (error). -/
def parsePriceCell (s : String) : Except String (Option ℚ) :=
  let t := stripNonNumeric s
  if t.isEmpty then Except.ok none
  else
    match pyFloatOfDigits t with
    | some q => Except.ok (some q)
    | none => Except.error ("ValueError")

/-- Python int() on a float: truncation toward zero. -/
def pyInt (q : ℚ) : ℤ := q.num.tdiv q.den

/-- Bool test that the second list is an initial segment of the first
argument list order: beginsWith pat hay. -/
def beginsWith : List Char → List Char → Bool
  | [], _ => true
  | _ :: _, [] => false
  | a :: as, b :: bs => a == b && beginsWith as bs

/-- Bool test that pat occurs contiguously somewhere in the list. -/
def containsSeq (pat : List Char) : List Char → Bool
  | [] => pat.isEmpty
  | c :: cs => beginsWith pat (c :: cs) || containsSeq pat cs

/-- Substring occurrence test on strings (Python in operator on str). -/
def strContains (hay pat : String) : Bool := containsSeq pat.data hay.data

/-- Value of a CSV cell for a named column: the stored text if the column is
among the (normalized) headers, else the empty fallback the loaders
synthesize. -/
def getCell (hs : List String) (name v : String) : String :=
  if hs.contains name then v else ""

/-! ## Housing page: data model (housing_page.py lines 37-67) -/

/-- One raw CSV row of housing_listings.csv: the textual cells that
housing_page.py reads (a missing value arrives as the pandas string nan). -/
structure RawListingRow where
  installment : String := ""
  price : String := ""
  address : String := ""
  beds : String := ""
  baths : String := ""
  status : String := ""
  pet_policy : String := ""
  max_residents : String := ""
  availability : String := ""
  included_utilities : String := ""
  image_url : String := ""
  link : String := ""
  unit : String := ""
deriving DecidableEq

/-- One normalized row of the housing dataframe after lines 37-67: string
columns plus the best-effort numeric price column price_num. -/
structure HousingRow where
  address : String := ""
  unit : String := ""
  price : String := ""
  beds : String := ""
  baths : String := ""
  status : String := ""
  pet_policy : String := ""
  max_residents : String := ""
  availability : String := ""
  included_utilities : String := ""
  image_url : String := ""
  link : String := ""
  price_num : Option ℚ := none
deriving DecidableEq

/-- The user filter selection of the housing page (slider and the three
selectboxes of lines 76-86). -/
structure HousingSel where
  price_max : ℤ
  beds : String
  status : String
  pet : String
deriving DecidableEq

/-! ## Housing page: filter engine (housing_page.py lines 88-96) -/

/-- Row predicate of the mask on line 90: price_num is NA or at most the
slider ceiling. -/
def pricePred (c : ℤ) (r : HousingRow) : Bool :=
  match r.price_num with
  | none => true
  | some p => decide (p ≤ (c : ℚ))

/-- Lines 89-90: the price mask is applied only when the price_num column
has at least one non-NA entry. -/
def priceStep (c : ℤ) (l : List HousingRow) : List HousingRow :=
  if l.any (fun r => r.price_num.isSome) then l.filter (pricePred c) else l

/-- Lines 91-92: bedrooms filter unless the selection is the Any sentinel. -/
def bedsStep (b : String) (l : List HousingRow) : List HousingRow :=
  if b ≠ "Any" then l.filter (fun r => r.beds == b) else l

/-- Lines 93-94: status filter unless the selection is the Any sentinel. -/
def statusStep (st : String) (l : List HousingRow) : List HousingRow :=
  if st ≠ "Any" then l.filter (fun r => r.status == st) else l

/-- Lines 95-96: pet-policy filter (exact equality test on the column)
unless the selection is the Any sentinel. -/
def petStep (p : String) (l : List HousingRow) : List HousingRow :=
  if p ≠ "Any" then l.filter (fun r => r.pet_policy == p) else l

/-- The two dataframe variables live across lines 88-96: df is the loaded
table object, filtered the view being narrowed. -/
structure HousingFilterState where
  df : List HousingRow
  filtered : List HousingRow
deriving DecidableEq

/-- Lines 88-96 as a state transformer: line 88 copies df into filtered and
each subsequent statement rebinds filtered only; no statement assigns into
df. -/
def housingFilterBlock (sel : HousingSel) (df : List HousingRow) : HousingFilterState :=
  let s0 : HousingFilterState := { df := df, filtered := df }
  let s1 : HousingFilterState := { s0 with filtered := priceStep sel.price_max s0.filtered }
  let s2 : HousingFilterState := { s1 with filtered := bedsStep sel.beds s1.filtered }
  let s3 : HousingFilterState := { s2 with filtered := statusStep sel.status s2.filtered }
  { s3 with filtered := petStep sel.pet s3.filtered }

/-- The filtered view produced by lines 88-96. -/
def housingFilter (sel : HousingSel) (df : List HousingRow) : List HousingRow :=
  (housingFilterBlock sel df).filtered

/-- Line 74: default of the price slider, the maximum of the non-NA numeric
prices when one exists, else 20000.0. -/
def presentPrices (l : List HousingRow) : List ℚ := l.filterMap (fun r => r.price_num)

/-- Line 74 continued: dropna().max() over price_num, with the 20000.0
fallback; the empty match arm is unreachable under the guard. -/
def priceSliderDefault (l : List HousingRow) : ℚ :=
  if l.any (fun r => r.price_num.isSome) then
    match presentPrices l with
    | [] => 20000
    | p :: ps => ps.foldl max p
  else 20000

/-- Line 77 plus the Any defaults of lines 79-86: the selection produced
when the user touches nothing (slider value int(price_max_default), every
selectbox at index 0, which is Any). -/
def defaultHousingSel (l : List HousingRow) : HousingSel :=
  { price_max := pyInt (priceSliderDefault l), beds := "Any", status := "Any", pet := "Any" }

/-- Predicate form of lines 91-92 (true when the dimension is inactive). -/
def bedsPred (b : String) (r : HousingRow) : Bool := decide (b = "Any") || (r.beds == b)

/-- Predicate form of lines 93-94 (true when the dimension is inactive). -/
def statusPredH (st : String) (r : HousingRow) : Bool := decide (st = "Any") || (r.status == st)

/-- Predicate form of lines 95-96 (true when the dimension is inactive). -/
def petPred (p : String) (r : HousingRow) : Bool := decide (p = "Any") || (r.pet_policy == p)

/-- Conjunction of the four masks of lines 88-96, associated the way the
four filters compose. -/
def housingPred (sel : HousingSel) (r : HousingRow) : Bool :=
  ((petPred sel.pet r && statusPredH sel.status r) && bedsPred sel.beds r)
    && pricePred sel.price_max r

/-! ## Housing page: loader (housing_page.py lines 32-67) -/

/-- The three states the housing CSV file can be in from the point of view
of lines 32-37: missing, present but unparseable (pd.read_csv raises
ParserError), or parsed into header names and raw rows. -/
inductive HousingSrc where
  | absent
  | malformed
  | table (headers : List String) (rows : List RawListingRow)
deriving DecidableEq

/-- Apply a fallible cell operation down a column, stopping at the first
raised error, as a pandas columnwise astype does. -/
def mapExcept (f : α → Except String β) : List α → Except String (List β)
  | [] => Except.ok []
  | a :: as =>
    match f a with
    | Except.error e => Except.error e
    | Except.ok b =>
      match mapExcept f as with
      | Except.error e => Except.error e
      | Except.ok bs => Except.ok (b :: bs)

/-- Lines 41-44: the text of the price column of a row; installment backs
it up, and when both columns are missing the column is filled with None,
which astype(str) prints as the string None. -/
def housingPriceText (hsn : List String) (r : RawListingRow) : String :=
  if hsn.contains "price" then r.price
  else if hsn.contains "installment" then r.installment
  else "None"

/-- Lines 54-67: build the normalized housing row, synthesizing an empty
cell for every column missing from the CSV (col_or_empty). -/
def mkHousingRow (hsn : List String) (r : RawListingRow) (num : Option ℚ) : HousingRow :=
  { address := getCell hsn "address" r.address
  , unit := getCell hsn "unit" r.unit
  , price := housingPriceText hsn r
  , beds := getCell hsn "beds" r.beds
  , baths := getCell hsn "baths" r.baths
  , status := getCell hsn "status" r.status
  , pet_policy := getCell hsn "pet_policy" r.pet_policy
  , max_residents := getCell hsn "max_residents" r.max_residents
  , availability := getCell hsn "availability" r.availability
  , included_utilities := getCell hsn "included_utilities" r.included_utilities
  , image_url := getCell hsn "image_url" r.image_url
  , link := getCell hsn "link" r.link
  , price_num := num }

/-- Lines 37-67 for a parsed table with normalized header names hsn: the
price_num column is computed first (astype(float) raising ValueError on a
price whose stripped text is nonempty but not a float), then the rows are
normalized. -/
def housingLoadTable (hsn : List String) (rows : List RawListingRow) :
    Except String (Option (List HousingRow)) :=
  match mapExcept (fun r => parsePriceCell (housingPriceText hsn r)) rows with
  | Except.error e => Except.error e
  | Except.ok nums =>
    Except.ok (some ((rows.zip nums).map (fun rp => mkHousingRow hsn rp.1 rp.2)))

/-- Lines 32-67 of housing_page.py: a missing file is advisory-only (ok
none); a malformed file raises out of pd.read_csv; otherwise headers are
lowercased and stripped and the table is normalized. -/
def housingLoad (src : HousingSrc) : Except String (Option (List HousingRow)) :=
  match src with
  | HousingSrc.absent => Except.ok none
  | HousingSrc.malformed => Except.error ("ParserError")
  | HousingSrc.table hs rows => housingLoadTable (hs.map (fun c => pyLower (pyStrip c))) rows

/-! ## Housing page: card renderer (housing_page.py lines 109-168) -/

/-- Python truthiness of an Optional str argument. -/
def optTruthy (o : Option String) : Bool :=
  match o with
  | none => false
  | some s => !s.isEmpty

/-- Lines 129-136: choose the card image source. -/
def imgSrcOf (fb ru : Option String) (r : HousingRow) : String :=
  let iu := pyStrip r.image_url
  if !iu.isEmpty && pyLower iu != "nan" then iu
  else if optTruthy fb then fb.getD ""
  else if optTruthy ru then ru.getD ""
  else ""

/-- Lines 123-127: the attribute pills, each present only when its field is
nonempty after stripping. -/
def pillsOf (r : HousingRow) : List String :=
  (if !(pyStrip r.beds).isEmpty then [pyStrip r.beds ++ " bed"] else [])
    ++ (if !(pyStrip r.baths).isEmpty then [pyStrip r.baths ++ " bath"] else [])
    ++ (if !(pyStrip r.max_residents).isEmpty then
          ["Up to " ++ pyStrip r.max_residents ++ " residents"] else [])
    ++ (if !(pyStrip r.pet_policy).isEmpty then [pyStrip r.pet_policy] else [])

/-- Line 138: the joined pill spans. -/
def pillsHtml (r : HousingRow) : String :=
  String.join ((pillsOf r).map (fun p => "<span class=\"pill\">" ++ p ++ "</span>"))

/-- The dedented card HTML of lines 140-154 up to the money span content. -/
def listingCardPre (r : HousingRow) : String :=
  "<div class=\"listing-card\">\n  <div class=\"listing-grid\">\n    <div class=\"listing-main\">\n      <div class=\"listing-title\">"
    ++ pyStrip r.address ++ "</div>\n      <div class=\"listing-sub\">" ++ pyStrip r.address
    ++ (if !(pyStrip r.unit).isEmpty then " - " ++ pyStrip r.unit else "")
    ++ "</div>\n\n      <div class=\"listing-pills\">" ++ pillsHtml r
    ++ "</div>\n\n      <div class=\"listing-status\">\n        <span class=\"ok\">"
    ++ pyStrip r.availability
    ++ "</span>\n      </div>\n\n      <div class=\"listing-price\">\n        <span class=\"money\">"

/-- The dedented card HTML of lines 154-168 after the money span content. -/
def listingCardSuf (fb ru : Option String) (r : HousingRow) : String :=
  "</span>\n        "
    ++ (if !(pyStrip r.status).isEmpty then
          "<span class=\"small-muted\"> • " ++ pyStrip r.status ++ "</span>" else "")
    ++ "\n      </div>\n\n      "
    ++ (if !(pyStrip r.included_utilities).isEmpty then
          "<div class=\"small-muted\">Included utilities: "
            ++ pyStrip r.included_utilities ++ "</div>" else "")
    ++ "\n      "
    ++ (if !(pyStrip r.link).isEmpty then
          "<div style=\"margin-top:10px;\"><a class=\"link-btn\" href=\"" ++ pyStrip r.link
            ++ "\" target=\"_blank\">Open listing</a></div>" else "")
    ++ "\n    </div>\n\n    <div class=\"listing-img\">\n      "
    ++ (if !(imgSrcOf fb ru r).isEmpty then
          "<img src=\"" ++ imgSrcOf fb ru r ++ "\" alt=\"listing\" />" else "")
    ++ "\n    </div>\n  </div>\n</div>\n<div class=\"section-gap\"></div>"

/-- Lines 109-168: the full card emitted for one row; the raw (stripped)
price string is interpolated verbatim into the money span. -/
def renderListingCard (fb ru : Option String) (r : HousingRow) : String :=
  listingCardPre r ++ pyStrip r.price ++ listingCardSuf fb ru r

/-- Modelled from the claim: the capacity N the claim reads off a row; the
code itself never parses max_residents as a number. -/
def claimedCapacity (r : HousingRow) : Option ℕ :=
  let t := pyStrip r.max_residents
  if !t.isEmpty && t.data.all Char.isDigit then some (digitsToNat t.data) else none

/-- Floor of p / n for n > 0, computed on the rational representation. -/
def perPersonFloor (p : ℚ) (n : ℕ) : ℤ := p.num.fdiv (p.den * n)

/-- Decimal rendering of a natural number. -/
def natDecimal (n : ℕ) : String := ⟨Nat.toDigits 10 n⟩

/-- Decimal rendering of an integer. -/
def intDecimal (z : ℤ) : String :=
  if z < 0 then "-" ++ natDecimal z.natAbs else natDecimal z.natAbs

/-! ## Academics page: data model and loaders (academics.py lines 22-141) -/

/-- One raw CSV row of major_courses_by_quarter.csv before normalization. -/
structure RawCourseRow where
  major : String := ""
  course_code : String := ""
  title : String := ""
  quarter : String := ""
  units : String := ""
  status : String := ""
  notes : String := ""
deriving DecidableEq

/-- One course row as the page sees it. CSV-loaded rows carry major, some
quarter and some status; DB-loaded rows carry dept and description and may
have a NULL (none) quarter or status from the LEFT JOIN. -/
structure CourseRow where
  major : String := ""
  course_code : String := ""
  title : String := ""
  quarter : Option String := none
  units : String := ""
  status : Option String := none
  notes : String := ""
  description : String := ""
  dept : String := ""
deriving DecidableEq

/-- The states of the course CSV file from the point of view of
load_courses_df lines 119-122: missing, unparseable, or parsed. -/
inductive CsvSource where
  | absent
  | malformed
  | table (headers : List String) (rows : List RawCourseRow)
deriving DecidableEq

/-- Line 125 of academics.py. -/
def requiredCourseCols : List String := ["major", "course_code", "title", "quarter"]

/-- Lines 130-139: synthesize missing optional columns as empty and
normalize the text columns (strip; quarter and status also title-cased). -/
def csvNormalizeRow (hsn : List String) (r : RawCourseRow) : CourseRow :=
  { major := pyStrip r.major
  , course_code := pyStrip r.course_code
  , title := pyStrip r.title
  , quarter := some (pyTitle (pyStrip r.quarter))
  , units := getCell hsn "units" r.units
  , status := some (pyTitle (pyStrip (getCell hsn "status" r.status)))
  , notes := getCell hsn "notes" r.notes }

/-- Lines 117-141 of academics.py: a missing file yields None; a malformed
file raises out of pd.read_csv; with a required column missing an advisory
is shown and None returned; otherwise rows are normalized. -/
def load_courses_df (src : CsvSource) : Except String (Option (List CourseRow)) :=
  match src with
  | CsvSource.absent => Except.ok none
  | CsvSource.malformed => Except.error ("ParserError")
  | CsvSource.table hs rows =>
    if requiredCourseCols.any
        (fun c => !((hs.map (fun c => pyLower (pyStrip c))).contains c)) then
      Except.ok none
    else
      Except.ok (some (rows.map (fun r => csvNormalizeRow (hs.map (fun c => pyLower (pyStrip c))) r)))

/-- Lines 29-40 of academics.py. -/
def MAJOR_DEPARTMENTS : List (String × List String) :=
  [ ("Statistics & Data Science", ["PSTAT"])
  , ("Computer Science", ["CMPSC"])
  , ("Economics", ["ECON"])
  , ("Mathematics", ["MATH"])
  , ("Biology", ["MCDB", "EEMB"])
  , ("Psychology", ["PSY"])
  , ("Chemistry", ["CHEM"])
  , ("Physics", ["PHYS"])
  , ("Philosophy", ["PHIL"])
  , ("English", ["ENGL"]) ]

/-- Python dict.get(key, default empty list). -/
def lookupList (m : List (String × List String)) (k : String) : List String :=
  match m.find? (fun p => p.1 == k) with
  | some p => p.2
  | none => []

/-- The states of the optional sqlite database: missing file, a database
that raises on connect or query, or queryable joined rows. -/
inductive DbSource where
  | absent
  | broken
  | ok (rows : List CourseRow)
deriving DecidableEq

/-- Insertion step for the ORDER BY course_code of the query. -/
def insertByCode (x : CourseRow) : List CourseRow → List CourseRow
  | [] => [x]
  | y :: ys =>
    if decide (x.course_code ≤ y.course_code) then x :: y :: ys else y :: insertByCode x ys

/-- ORDER BY course_code of the query of lines 85-105. -/
def sortByCode : List CourseRow → List CourseRow
  | [] => []
  | x :: xs => insertByCode x (sortByCode xs)

/-- The WHERE and ORDER BY of the query of lines 85-108 over the joined
rows, or the sqlite error the try block can see. -/
def dbQueryRun (major quarter : String) (db : DbSource) : Except String (List CourseRow) :=
  match db with
  | DbSource.broken => Except.error ("DatabaseError")
  | DbSource.absent => Except.ok []
  | DbSource.ok rows =>
    Except.ok (sortByCode (rows.filter (fun r =>
      (lookupList MAJOR_DEPARTMENTS major).contains r.dept
        && (r.quarter == some quarter || r.quarter == none))))

/-- Lines 72-114 of academics.py: missing DB file yields None; unknown
major yields None; the try/except catches every database error, shows an
advisory and yields None; an empty result is also None. -/
def load_courses_from_db (major quarter : String) (db : DbSource) :
    Except String (Option (List CourseRow)) :=
  match db with
  | DbSource.absent => Except.ok none
  | _ =>
    if (lookupList MAJOR_DEPARTMENTS major).isEmpty then Except.ok none
    else
      match dbQueryRun major quarter db with
      | Except.error _ => Except.ok none
      | Except.ok df => Except.ok (if df.isEmpty then none else some df)

/-! ## Academics page: card renderer (academics.py lines 159-215) -/

/-- Lines 167-179: badge background and foreground chosen from the
lowercased status; only open, full and mixed are mapped, everything else
gets the grey pair. -/
def statusColors (status : String) : String × String :=
  let sl := pyLower status
  if sl == "open" then ("#ecfdf3", "#166534")
  else if sl == "full" then ("#fef2f2", "#991b1b")
  else if sl == "mixed" then ("#fffbeb", "#92400e")
  else ("#f3f4f6", "#374151")

/-- Lines 183-214: the markdown card for one course row (whitespace
normalized; every interpolation kept). -/
def renderCourseCard (r : CourseRow) : String :=
  let code := pyStrip r.course_code
  let title := pyStrip r.title
  let units := pyStrip r.units
  let status := pyStrip (astypeStr r.status)
  let notes := pyStrip r.notes
  let bgfg := statusColors status
  let unitsLabel := if units.isEmpty then "n/a" else units
  "<div style=\"border-radius: 12px; overflow: hidden; border: 1px solid rgba(255,255,255,0.08); background: rgba(15,23,42,0.35); margin-bottom: 14px; box-shadow: 0 10px 24px rgba(0,0,0,0.20);\">\n  <div style=\"background:#003660; color:#ffffff; padding:10px 12px; font-weight:700; font-size:0.95rem;\">\n    "
    ++ code
    ++ "\n  </div>\n  <div style=\"padding:12px 12px; font-size:0.92rem;\">\n    <div style=\"font-weight:650; margin-bottom:6px;\">"
    ++ title
    ++ "</div>\n\n    <div style=\"display:flex; gap:8px; flex-wrap:wrap; margin-bottom:10px;\">\n      <span style=\"display:inline-block; padding:6px 10px; border-radius:999px; background:rgba(255,255,255,0.08); border:1px solid rgba(255,255,255,0.10);\">\n        "
    ++ unitsLabel
    ++ " units\n      </span>\n\n      <span style=\"display:inline-block; padding:6px 10px; border-radius:999px; background:"
    ++ bgfg.1 ++ "; color:" ++ bgfg.2 ++ "; font-weight:700;\">\n        "
    ++ (if status.isEmpty then "Status n/a" else status)
    ++ "\n      </span>\n    </div>\n\n    "
    ++ (if notes.isEmpty then ""
        else "<div style=\x27opacity:0.85; line-height:1.45;\x27>" ++ notes ++ "</div>")
    ++ "\n  </div>\n</div>"

/-! ## Academics page: classes-by-quarter filtering (academics.py 218-322) -/

/-- Lines 218-220: season of a UI quarter label, its first word. -/
def quarterSeason (ui : String) : String := pyTitle (pyStrip ((pySplit ui).headD ""))

/-- Line 287: astype(str).str.strip().str.title() on one quarter cell. -/
def normQuarter (q : Option String) : String := pyTitle (pyStrip (astypeStr q))

/-- Lines 288-291: the mask over the already-normalized quarter column,
accepting the season-only value or the full UI label. -/
def qmatchPred (ui : String) (r : CourseRow) : Bool :=
  astypeStr r.quarter == quarterSeason ui || astypeStr r.quarter == ui

/-- Line 287 columnwise: overwrite the quarter column with its normalized
values. -/
def quarterNormalizeRows (rows : List CourseRow) : List CourseRow :=
  rows.map (fun r => { r with quarter := some (normQuarter r.quarter) })

/-- Lines 286-291 as one step: normalize the quarter column, then keep the
rows matching the season or the full label. -/
def quarterStep (ui : String) (rows : List CourseRow) : List CourseRow :=
  (quarterNormalizeRows rows).filter (qmatchPred ui)

/-- Line 282 columnwise: overwrite the major column with stripped values. -/
def majorNormalizeRows (rows : List CourseRow) : List CourseRow :=
  rows.map (fun r => { r with major := pyStrip r.major })

/-- Lines 313-314: the status multiselect filter; an empty selection is
falsy and skips the filter. -/
def statusIsinStep (sf : List String) (l : List CourseRow) : List CourseRow :=
  if sf.isEmpty then l else l.filter (fun r => sf.contains (pyTitle (astypeStr r.status)))

/-- The loaded table object (courses_df at line 275): its rows plus whether
it has a major column (the CSV does, the DB query result does not). -/
structure CourseTable where
  hasMajor : Bool
  rows : List CourseRow
deriving DecidableEq

/-- State after the filter block: the loaded table object (values it holds
after the in-place column assignments of lines 282 and 287) and the final
filtered view bound to courses_df. -/
structure AcadFilterState where
  loaded : CourseTable
  view : List CourseRow
deriving DecidableEq

/-- Lines 281-291 and 313-314. With a major column, line 282 assigns into
the loaded object and line 283 rebinds courses_df to a filtered copy, so
the quarter assignment of line 287 hits the copy. Without a major column,
line 287 assigns the normalized quarter column into the loaded object
itself. -/
def acadFilterBlock (majorSel quarterUi : String) (statusFilter : List String)
    (t : CourseTable) : AcadFilterState :=
  if t.hasMajor then
    let t2 : CourseTable := { t with rows := majorNormalizeRows t.rows }
    let v1 := t2.rows.filter (fun r => r.major == majorSel)
    { loaded := t2, view := statusIsinStep statusFilter (quarterStep quarterUi v1) }
  else
    let rows2 := quarterNormalizeRows t.rows
    { loaded := { t with rows := rows2 }
    , view := statusIsinStep statusFilter (rows2.filter (qmatchPred quarterUi)) }

/-- Line 270: the hardcoded UI quarter labels. -/
def uiQuarterLabels : List String := ["Winter 2025", "Spring 2025", "Fall 2024"]

/-! ## Academics page: course search (academics.py lines 335-344) -/

/-- SQLite LIKE with wildcards around the query: ASCII case-insensitive
substring containment. -/
def likeContains (hay q : String) : Bool := strContains (pyLower hay) (pyLower q)

/-- Lines 336-344: WHERE code or title or description LIKE the pattern,
LIMIT 50. -/
def searchCourses (q : String) (courses : List CourseRow) : List CourseRow :=
  (courses.filter (fun c =>
    likeContains c.course_code q || likeContains c.title q
      || likeContains c.description q)).take 50

/-! ## Concrete rows used by counterexamples and witnesses -/

/-- Housing row with price 1000 and capacity 3 (claim C1). -/
def c1Row : HousingRow :=
  { address := "6710 Pasado Rd", price := "1000", beds := "2", baths := "1"
  , max_residents := "3", price_num := some (mkRat 1000 1) }

/-- Raw listing row whose price text raises ValueError in astype(float). -/
def c2BadPriceRow : RawListingRow := { price := "1.2.3" }

/-- Headers of a housing CSV with a price column. -/
def c2HousingHeaders : List String := ["Price", "Address"]

/-- Raw listing row whose price text parses after the regex strip. -/
def c2GoodPriceRow : RawListingRow := { price := "$1,200", address := "Abrego" }

/-- Headers of a well-formed course CSV. -/
def c2CourseHeaders : List String := [" Major", "course_code", "Title", "quarter", "status"]

/-- A raw course CSV row. -/
def c2CourseRow : RawCourseRow :=
  { major := "Computer Science", course_code := "CMPSC 9", title := "Intermediate Python"
  , quarter := "winter", status := "open" }

/-- Housing row with a priced listing (claim C3 witness). -/
def c3Row : HousingRow := { price := "500", price_num := some (mkRat 500 1) }

/-- Housing row whose pet policy is exactly the selected option. -/
def c4RowDog : HousingRow := { pet_policy := "Dog" }

/-- Housing row whose pet policy merely contains the selected option. -/
def c4RowDogs : HousingRow := { pet_policy := "Dogs allowed" }

/-- DB-loaded course row whose quarter is NULL (a course with no offering
row under the LEFT JOIN). -/
def c5Row : CourseRow :=
  { course_code := "PSTAT 120A", dept := "PSTAT", quarter := none, status := some "Open" }

/-- DB-loaded table: no major column, one NULL-quarter row. -/
def c5Table : CourseTable := { hasMajor := false, rows := [c5Row] }

/-- Course row whose status is Available (claim C6). -/
def c6Row : CourseRow :=
  { course_code := "CMPSC 9", title := "Intermediate Python", units := "4"
  , status := some "Available" }

/-- Housing row with the fractional price 1500.5 (claim C7). -/
def c7Row : HousingRow := { price := "1500.50", price_num := some (mkRat 3001 2) }

/-- Housing row with an integral price (claim C7 witness). -/
def c7wRow : HousingRow := { price := "1500", price_num := some (mkRat 1500 1) }

/-- Course row whose raw quarter cell normalizes to the season Winter. -/
def c9Row : CourseRow :=
  { course_code := "PSTAT 120A", major := "Statistics & Data Science"
  , quarter := some " winter ", status := some "Open" }

/-- A course row of the searchable DB table (claim C10 witness). -/
def c10Course : CourseRow :=
  { course_code := "PSTAT 120A", title := "Probability and Statistics"
  , description := "Probability spaces and random variables", dept := "PSTAT" }

/-! ## Helper lemmas: Python strip -/

lemma head?_dropWhile_isSpace (l : List Char) :
    ∀ c, (l.dropWhile isSpace).head? = some c → isSpace c = false := by
  induction l with
  | nil => intro c h; simp [List.dropWhile] at h
  | cons a t ih =>
    intro c h
    rw [List.dropWhile_cons] at h
    by_cases ha : isSpace a = true
    · rw [if_pos ha] at h; exact ih c h
    · rw [if_neg ha] at h
      simp at h
      rw [← h]
      simpa using ha

lemma dropWhile_eq_self_of_head (l : List Char)
    (h : ∀ c, l.head? = some c → isSpace c = false) : l.dropWhile isSpace = l := by
  cases l with
  | nil => rfl
  | cons a t =>
    rw [List.dropWhile_cons, if_neg]
    simp [h a rfl]

lemma getLast?_dropWhile_isSpace (l : List Char) :
    ∀ c, (l.dropWhile isSpace).getLast? = some c → l.getLast? = some c := by
  intro c h
  obtain ⟨t, ht⟩ := (List.dropWhile_suffix isSpace : l.dropWhile isSpace <:+ l)
  rw [← ht]
  rw [List.getLast?_append_of_ne_nil]
  · exact h
  · intro hnil; rw [hnil] at h; simp at h

lemma stripChars_idem (l : List Char) : stripChars (stripChars l) = stripChars l := by
  have h1 : (stripChars l).dropWhile isSpace = stripChars l := by
    apply dropWhile_eq_self_of_head
    intro c h
    unfold stripChars at h
    rw [List.head?_reverse] at h
    have h2 : (l.dropWhile isSpace).reverse.getLast? = some c :=
      getLast?_dropWhile_isSpace _ c h
    rw [List.getLast?_reverse] at h2
    exact head?_dropWhile_isSpace l c h2
  have h3 : ((l.dropWhile isSpace).reverse.dropWhile isSpace).dropWhile isSpace
      = (l.dropWhile isSpace).reverse.dropWhile isSpace := by
    apply dropWhile_eq_self_of_head
    intro c h
    exact head?_dropWhile_isSpace _ c h
  show (((stripChars l).dropWhile isSpace).reverse.dropWhile isSpace).reverse = stripChars l
  rw [h1]
  unfold stripChars
  rw [List.reverse_reverse, h3]

lemma pyStrip_idem (s : String) : pyStrip (pyStrip s) = pyStrip s := by
  unfold pyStrip
  rw [show (String.mk (stripChars s.data)).data = stripChars s.data from rfl, stripChars_idem]

/-! ## Helper lemmas: substring containment -/

lemma beginsWith_append (l rest : List Char) : beginsWith l (l ++ rest) = true := by
  induction l with
  | nil => rfl
  | cons a as ih => simp [beginsWith, ih]

lemma containsSeq_of_beginsWith (pat hay : List Char) (h : beginsWith pat hay = true) :
    containsSeq pat hay = true := by
  cases hay with
  | nil =>
    cases pat with
    | nil => rfl
    | cons b bs => simp [beginsWith] at h
  | cons c cs => simp [containsSeq, h]

lemma containsSeq_append_left (pre pat hay : List Char) (h : containsSeq pat hay = true) :
    containsSeq pat (pre ++ hay) = true := by
  induction pre with
  | nil => simpa using h
  | cons a as ih => simp [containsSeq, ih]

lemma strContains_append_mid (a b c : String) : strContains (a ++ b ++ c) b = true := by
  unfold strContains
  rw [String.data_append, String.data_append, List.append_assoc]
  exact containsSeq_append_left a.data b.data (b.data ++ c.data)
    (containsSeq_of_beginsWith b.data (b.data ++ c.data) (beginsWith_append b.data c.data))

/-! ## Helper lemmas: the housing filter chain as a single List.filter -/

lemma priceStep_eq_filter (c : ℤ) (l : List HousingRow) :
    priceStep c l = l.filter (pricePred c) := by
  unfold priceStep
  by_cases hg : l.any (fun r => r.price_num.isSome) = true
  · rw [if_pos hg]
  · rw [if_neg hg]
    symm
    apply List.filter_eq_self.mpr
    intro r hr
    rw [Bool.not_eq_true] at hg
    have hnone := List.any_eq_false.mp hg r hr
    cases hp : r.price_num with
    | none => simp [pricePred, hp]
    | some p => exfalso; apply hnone; simp [hp]

lemma bedsStep_eq_filter (b : String) (l : List HousingRow) :
    bedsStep b l = l.filter (bedsPred b) := by
  unfold bedsStep bedsPred
  by_cases hb : b = "Any"
  · rw [if_neg (by simp [hb])]
    symm
    apply List.filter_eq_self.mpr
    intro r hr
    simp [hb]
  · rw [if_pos hb]
    apply List.filter_congr
    intro r hr
    simp [hb]

lemma statusStep_eq_filter (st : String) (l : List HousingRow) :
    statusStep st l = l.filter (statusPredH st) := by
  unfold statusStep statusPredH
  by_cases hb : st = "Any"
  · rw [if_neg (by simp [hb])]
    symm
    apply List.filter_eq_self.mpr
    intro r hr
    simp [hb]
  · rw [if_pos hb]
    apply List.filter_congr
    intro r hr
    simp [hb]

lemma petStep_eq_filter (p : String) (l : List HousingRow) :
    petStep p l = l.filter (petPred p) := by
  unfold petStep petPred
  by_cases hb : p = "Any"
  · rw [if_neg (by simp [hb])]
    symm
    apply List.filter_eq_self.mpr
    intro r hr
    simp [hb]
  · rw [if_pos hb]
    apply List.filter_congr
    intro r hr
    simp [hb]

lemma housingFilter_eq_filter (sel : HousingSel) (l : List HousingRow) :
    housingFilter sel l = l.filter (housingPred sel) := by
  show petStep sel.pet (statusStep sel.status (bedsStep sel.beds (priceStep sel.price_max l)))
    = l.filter (housingPred sel)
  rw [priceStep_eq_filter, bedsStep_eq_filter, statusStep_eq_filter, petStep_eq_filter,
    List.filter_filter, List.filter_filter, List.filter_filter]
  rfl

lemma filter_self_idem {α : Type} (p : α → Bool) (l : List α) :
    (l.filter p).filter p = l.filter p := by
  rw [List.filter_filter]
  apply List.filter_congr
  intro a ha
  rw [Bool.and_self]

/-! ## Claim C3 -/

/-- C3: for every numeric ceiling C and every row R of the loaded housing
table, the price filter of lines 88-90 excludes R if and only if the
numeric price of R is present and exceeds C; a row with a missing price
always passes, also when the whole-column guard disables the mask. -/
theorem c3_price_filter_excludes_iff (c : ℤ) (l : List HousingRow) (r : HousingRow)
    (h : r ∈ l) :
    (r ∉ priceStep c l) ↔ ∃ p, r.price_num = some p ∧ (c : ℚ) < p := by
  rw [priceStep_eq_filter]
  constructor
  · intro hn
    cases hp : r.price_num with
    | none =>
      exact absurd (List.mem_filter.mpr ⟨h, by simp [pricePred, hp]⟩) hn
    | some p =>
      by_cases hle : p ≤ (c : ℚ)
      · exact absurd (List.mem_filter.mpr ⟨h, by simp [pricePred, hp, hle]⟩) hn
      · exact ⟨p, rfl, not_le.mp hle⟩
  · rintro ⟨p, hp, hlt⟩ hmem
    have hpred := (List.mem_filter.mp hmem).2
    simp [pricePred, hp] at hpred
    exact absurd hpred (not_le.mpr hlt)

/-- Witness for C3 at a concrete priced row and ceiling 300. -/
theorem c3_witness :
    c3Row ∈ [c3Row]
      ∧ ((c3Row ∉ priceStep 300 [c3Row])
          ↔ ∃ p, c3Row.price_num = some p ∧ ((300 : ℤ) : ℚ) < p) :=
  ⟨by decide, c3_price_filter_excludes_iff 300 [c3Row] c3Row (by decide)⟩

/-! ## Claim C4 -/

/-- C4 counterexample: with the selection Dog, the row whose pet policy is
the string Dogs allowed contains Dog as a substring yet is removed by the
filter of lines 95-96, so pet-policy matching is not substring search. -/
theorem c4_counterexample :
    strContains c4RowDogs.pet_policy ("Dog") = true
      ∧ c4RowDogs ∈ [c4RowDog, c4RowDogs]
      ∧ c4RowDogs ∉ petStep ("Dog") [c4RowDog, c4RowDogs] :=
  ⟨by decide, by decide, by decide⟩

/-- C4 amended: for every non-Any pet selection p, the filter of lines
95-96 keeps a row of the table exactly when its pet_policy value is equal
to p (exact equality, not substring containment). -/
theorem c4_pet_filter_exact_equality (p : String) (l : List HousingRow) (r : HousingRow)
    (hp : p ≠ "Any") (h : r ∈ l) :
    r ∈ petStep p l ↔ r.pet_policy = p := by
  unfold petStep
  rw [if_pos hp]
  constructor
  · intro hx
    have hpred := (List.mem_filter.mp hx).2
    simpa using hpred
  · intro hx
    exact List.mem_filter.mpr ⟨h, by simp [hx]⟩

/-- Witness for the amended C4 at the concrete selection Dog. -/
theorem c4_witness :
    (("Dog" : String) ≠ "Any")
      ∧ c4RowDog ∈ [c4RowDog, c4RowDogs]
      ∧ (c4RowDog ∈ petStep ("Dog") [c4RowDog, c4RowDogs] ↔ c4RowDog.pet_policy = "Dog") :=
  ⟨by decide, by decide,
    c4_pet_filter_exact_equality ("Dog") [c4RowDog, c4RowDogs] c4RowDog (by decide) (by decide)⟩

/-! ## Claim C8 -/

/-- C8: the housing filter of lines 88-96 is idempotent; filtering an
already-filtered table with the same selection returns it unchanged. -/
theorem c8_housing_filter_idempotent (sel : HousingSel) (l : List HousingRow) :
    housingFilter sel (housingFilter sel l) = housingFilter sel l := by
  rw [housingFilter_eq_filter, housingFilter_eq_filter, filter_self_idem]

/-! ## Claim C7 -/

lemma le_foldl_max (ps : List ℚ) : ∀ (p x : ℚ), (x = p ∨ x ∈ ps) → x ≤ ps.foldl max p := by
  induction ps with
  | nil =>
    intro p x h
    rcases h with h | h
    · exact le_of_eq h
    · simp at h
  | cons q qs ih =>
    intro p x h
    show x ≤ qs.foldl max (max p q)
    rcases h with h | h
    · exact le_trans (le_of_eq h)
        (le_trans (le_max_left p q) (ih (max p q) (max p q) (Or.inl rfl)))
    · rcases List.mem_cons.mp h with h1 | h1
      · exact le_trans (le_of_eq h1)
          (le_trans (le_max_right p q) (ih (max p q) (max p q) (Or.inl rfl)))
      · exact ih (max p q) x (Or.inr h1)

lemma foldl_max_mem (ps : List ℚ) : ∀ p, ps.foldl max p = p ∨ ps.foldl max p ∈ ps := by
  induction ps with
  | nil => intro p; exact Or.inl rfl
  | cons q qs ih =>
    intro p
    show qs.foldl max (max p q) = p ∨ qs.foldl max (max p q) ∈ q :: qs
    rcases ih (max p q) with h | h
    · rcases max_choice p q with hm | hm
      · exact Or.inl (h.trans hm)
      · exact Or.inr (List.mem_cons.mpr (Or.inl (h.trans hm)))
    · exact Or.inr (List.mem_cons.mpr (Or.inr h))

lemma pyInt_intCast (n : ℤ) : pyInt ((n : ℚ)) = n := by
  unfold pyInt
  simp [Rat.num_intCast, Rat.den_intCast, Int.tdiv_one]

/-- C7 counterexample: a one-row table whose only price is the fractional
1500.5; the untouched selection truncates the slider default to 1500, so
the empty filter selection removes the row instead of returning the table
unchanged. -/
theorem c7_counterexample :
    housingFilter (defaultHousingSel [c7Row]) [c7Row] = []
      ∧ housingFilter (defaultHousingSel [c7Row]) [c7Row] ≠ [c7Row] :=
  ⟨by decide, by decide⟩

/-- C7 amended: when every present numeric price of the table is a whole
number (so int() loses nothing), the untouched selection (slider at its
default, every selectbox at Any) returns the entire table unmodified; the
Any sentinel passes every row on its dimension. -/
theorem c7_default_selection_identity_for_integral_prices (l : List HousingRow)
    (h : ∀ r ∈ l, ∀ p, r.price_num = some p → ∃ n : ℤ, p = (n : ℚ)) :
    housingFilter (defaultHousingSel l) l = l := by
  rw [housingFilter_eq_filter]
  apply List.filter_eq_self.mpr
  intro r hr
  have hb : bedsPred (defaultHousingSel l).beds r = true := by
    simp [defaultHousingSel, bedsPred]
  have hst : statusPredH (defaultHousingSel l).status r = true := by
    simp [defaultHousingSel, statusPredH]
  have hpet : petPred (defaultHousingSel l).pet r = true := by
    simp [defaultHousingSel, petPred]
  have hpr : pricePred (defaultHousingSel l).price_max r = true := by
    cases hp : r.price_num with
    | none => simp [pricePred, hp]
    | some p =>
      simp only [pricePred, hp, decide_eq_true_eq]
      obtain ⟨n, hn⟩ := h r hr p hp
      have hguard : l.any (fun r => r.price_num.isSome) = true := by
        rw [List.any_eq_true]
        exact ⟨r, hr, by simp [hp]⟩
      have hpmem : p ∈ presentPrices l := List.mem_filterMap.mpr ⟨r, hr, hp⟩
      rcases hpp : presentPrices l with _ | ⟨q0, qs⟩
      · rw [hpp] at hpmem; simp at hpmem
      · have hsd : priceSliderDefault l = qs.foldl max q0 := by
          unfold priceSliderDefault
          rw [if_pos hguard, hpp]
        have hple : p ≤ qs.foldl max q0 := by
          apply le_foldl_max
          rw [hpp] at hpmem
          rcases List.mem_cons.mp hpmem with h1 | h1
          · exact Or.inl h1
          · exact Or.inr h1
        have hmaxmem : qs.foldl max q0 ∈ presentPrices l := by
          rw [hpp]
          rcases foldl_max_mem qs q0 with h1 | h1
          · rw [h1]; exact List.mem_cons_self q0 qs
          · exact List.mem_cons.mpr (Or.inr h1)
        obtain ⟨r2, hr2, hr2p⟩ := List.mem_filterMap.mp hmaxmem
        obtain ⟨m, hm⟩ := h r2 hr2 (qs.foldl max q0) hr2p
        have hcast : (((defaultHousingSel l).price_max : ℤ) : ℚ) = qs.foldl max q0 := by
          show ((pyInt (priceSliderDefault l) : ℤ) : ℚ) = qs.foldl max q0
          rw [hsd, hm, pyInt_intCast]
        rw [hcast]
        exact hple
  unfold housingPred
  rw [hb, hst, hpet, hpr]
  rfl

/-- Witness for the amended C7: a one-row table with the integral price
1500 is returned unchanged by the untouched selection. -/
theorem c7_witness : housingFilter (defaultHousingSel [c7wRow]) [c7wRow] = [c7wRow] :=
  c7_default_selection_identity_for_integral_prices [c7wRow] (by
    intro r hr p hp
    rw [List.mem_singleton] at hr
    subst hr
    rw [show c7wRow.price_num = some (mkRat 1500 1) from rfl] at hp
    injection hp with h2
    exact ⟨1500, by rw [← h2]; decide⟩)

/-! ## Claim C1 -/

/-- C1 counterexample: a rendered row with price 1000 and capacity 3 (both
present, capacity positive); floor(1000/3) is 333 but the rendered card
nowhere contains 333; the renderer computes no per-person price. -/
theorem c1_counterexample :
    c1Row.price_num = some (mkRat 1000 1)
      ∧ claimedCapacity c1Row = some 3
      ∧ 0 < 3
      ∧ perPersonFloor (mkRat 1000 1) 3 = 333
      ∧ intDecimal (perPersonFloor (mkRat 1000 1) 3) = "333"
      ∧ strContains (renderListingCard none none c1Row)
          (intDecimal (perPersonFloor (mkRat 1000 1) 3)) = false :=
  ⟨rfl, by decide, by decide, by decide, by decide, by decide⟩

/-- C1 amended: the card renderer of lines 109-168 interpolates the raw
(stripped) price string verbatim into the money span of every card and
computes no per-person value; capacity appears only in the Up to N
residents pill. -/
theorem c1_price_rendered_verbatim (fb ru : Option String) (r : HousingRow) :
    strContains (renderListingCard fb ru r) (pyStrip r.price) = true := by
  unfold renderListingCard
  exact strContains_append_mid (listingCardPre r) (pyStrip r.price) (listingCardSuf fb ru r)

/-! ## Claim C6 -/

/-- The ifs of lines 167-179 as propositional conditions. -/
lemma statusColors_cases (x : String) :
    statusColors x =
      (if pyLower x = "open" then ("#ecfdf3", "#166534")
       else if pyLower x = "full" then ("#fef2f2", "#991b1b")
       else if pyLower x = "mixed" then ("#fffbeb", "#92400e")
       else ("#f3f4f6", "#374151")) := by
  unfold statusColors
  by_cases h1 : pyLower x = "open"
  · rw [if_pos (by simp [h1]), if_pos h1]
  · rw [if_neg (by simp [h1]), if_neg h1]
    by_cases h2 : pyLower x = "full"
    · rw [if_pos (by simp [h2]), if_pos h2]
    · rw [if_neg (by simp [h2]), if_neg h2]
      by_cases h3 : pyLower x = "mixed"
      · rw [if_pos (by simp [h3]), if_pos h3]
      · rw [if_neg (by simp [h3]), if_neg h3]

/-- C6 counterexample: a course row whose status is Available is rendered
with the grey badge background, not the green one, so available does not
map to green as the claim states. -/
theorem c6_counterexample :
    statusColors (pyStrip (astypeStr c6Row.status)) = ("#f3f4f6", "#374151")
      ∧ strContains (renderCourseCard c6Row) ("background:#f3f4f6") = true
      ∧ strContains (renderCourseCard c6Row) ("background:#ecfdf3") = false :=
  ⟨by decide, by decide, by decide⟩

/-- C6 amended: the status badge of display_course_card is colored by a
four-way classification of the stripped, lowercased status: exactly open
is green, exactly full is red, exactly mixed is amber, and every other
status (including available, leased and processing) is grey. -/
theorem c6_status_badge_mapping (st : Option String) :
    (statusColors (pyStrip (astypeStr st)) = ("#ecfdf3", "#166534")
      ↔ pyLower (pyStrip (astypeStr st)) = "open")
    ∧ (statusColors (pyStrip (astypeStr st)) = ("#fef2f2", "#991b1b")
      ↔ pyLower (pyStrip (astypeStr st)) = "full")
    ∧ (statusColors (pyStrip (astypeStr st)) = ("#fffbeb", "#92400e")
      ↔ pyLower (pyStrip (astypeStr st)) = "mixed")
    ∧ (statusColors (pyStrip (astypeStr st)) = ("#f3f4f6", "#374151")
      ↔ (pyLower (pyStrip (astypeStr st)) ≠ "open"
          ∧ pyLower (pyStrip (astypeStr st)) ≠ "full"
          ∧ pyLower (pyStrip (astypeStr st)) ≠ "mixed")) := by
  rw [statusColors_cases]
  by_cases h1 : pyLower (pyStrip (astypeStr st)) = "open"
  · rw [if_pos h1]
    exact ⟨iff_of_true rfl h1,
      iff_of_false (by decide) (fun hf => absurd (hf.symm.trans h1) (by decide)),
      iff_of_false (by decide) (fun hf => absurd (hf.symm.trans h1) (by decide)),
      iff_of_false (by decide) (fun hc => hc.1 h1)⟩
  · rw [if_neg h1]
    by_cases h2 : pyLower (pyStrip (astypeStr st)) = "full"
    · rw [if_pos h2]
      exact ⟨iff_of_false (by decide) (fun hf => absurd (hf.symm.trans h2) (by decide)),
        iff_of_true rfl h2,
        iff_of_false (by decide) (fun hf => absurd (hf.symm.trans h2) (by decide)),
        iff_of_false (by decide) (fun hc => hc.2.1 h2)⟩
    · rw [if_neg h2]
      by_cases h3 : pyLower (pyStrip (astypeStr st)) = "mixed"
      · rw [if_pos h3]
        exact ⟨iff_of_false (by decide) (fun hf => absurd (hf.symm.trans h3) (by decide)),
          iff_of_false (by decide) (fun hf => absurd (hf.symm.trans h3) (by decide)),
          iff_of_true rfl h3,
          iff_of_false (by decide) (fun hc => hc.2.2 h3)⟩
      · rw [if_neg h3]
        exact ⟨iff_of_false (by decide) h1,
          iff_of_false (by decide) h2,
          iff_of_false (by decide) h3,
          iff_of_true rfl ⟨h1, h2, h3⟩⟩

/-! ## Claim C5 -/

lemma acadFilterBlock_loaded_hasMajor (ms ui : String) (sf : List String)
    (rows : List CourseRow) :
    (acadFilterBlock ms ui sf (CourseTable.mk true rows)).loaded
      = CourseTable.mk true (majorNormalizeRows rows) := rfl

/-- C5 counterexample: running the academics filter block on a DB-loaded
table (no major column) whose single row has a NULL quarter changes the
loaded table in place; the in-place quarter assignment of line 287 turns
the NULL into the string None. -/
theorem c5_counterexample :
    (acadFilterBlock ("Computer Science") ("Winter 2025") ["Open", "Mixed", "Full"]
        c5Table).loaded ≠ c5Table
      ∧ (acadFilterBlock ("Computer Science") ("Winter 2025") ["Open", "Mixed", "Full"]
          c5Table).loaded
        = CourseTable.mk false [{ c5Row with quarter := some ("None") }] :=
  ⟨by decide, by decide⟩

/-- C5 amended: the housing filter block of lines 88-96 never mutates the
loaded table (it copies first); the academics filter block does assign into
the loaded table in place, but on a CSV table that just left the loader the
re-normalization writes back the values already there, so only DB-loaded
tables (no major column, possible NULL quarters) change observably. -/
theorem c5_filter_no_value_mutation :
    (∀ sel df, (housingFilterBlock sel df).df = df)
      ∧ (∀ ms ui : String, ∀ sf hsn : List String, ∀ raws : List RawCourseRow,
          (acadFilterBlock ms ui sf
              (CourseTable.mk true (raws.map (csvNormalizeRow hsn)))).loaded
            = CourseTable.mk true (raws.map (csvNormalizeRow hsn))) := by
  constructor
  · intro sel df
    rfl
  · intro ms ui sf hsn raws
    rw [acadFilterBlock_loaded_hasMajor]
    congr 1
    unfold majorNormalizeRows
    rw [List.map_map]
    apply List.map_congr_left
    intro a ha
    show { csvNormalizeRow hsn a with major := pyStrip (csvNormalizeRow hsn a).major }
      = csvNormalizeRow hsn a
    unfold csvNormalizeRow
    simp [pyStrip_idem]

/-! ## Claim C9 -/

/-- C9: for each of the hardcoded UI quarter labels, the classes-by-quarter
filter of lines 286-291 keeps a row exactly when its normalized (stripped,
title-cased) quarter equals the season-only name (the first word of the
label) or the full label; both forms are accepted at once. -/
theorem c9_quarter_filter_dual_match (ui : String) (rows : List CourseRow) (r : CourseRow)
    (hui : ui ∈ uiQuarterLabels) (hr : r ∈ rows) :
    ({ r with quarter := some (normQuarter r.quarter) } ∈ quarterStep ui rows
      ↔ (normQuarter r.quarter = quarterSeason ui ∨ normQuarter r.quarter = ui)) := by
  unfold quarterStep
  constructor
  · intro hx
    have hpred := (List.mem_filter.mp hx).2
    unfold qmatchPred at hpred
    simpa [astypeStr] using hpred
  · intro hx
    apply List.mem_filter.mpr
    constructor
    · exact List.mem_map_of_mem (fun r => { r with quarter := some (normQuarter r.quarter) }) hr
    · unfold qmatchPred
      simpa [astypeStr] using hx

/-- Witness for C9: the Winter 2025 label against a row whose raw quarter
cell normalizes to the season Winter. -/
theorem c9_witness :
    (("Winter 2025" : String) ∈ uiQuarterLabels)
      ∧ c9Row ∈ [c9Row]
      ∧ ({ c9Row with quarter := some (normQuarter c9Row.quarter) }
            ∈ quarterStep ("Winter 2025") [c9Row]
          ↔ (normQuarter c9Row.quarter = quarterSeason ("Winter 2025")
              ∨ normQuarter c9Row.quarter = "Winter 2025")) :=
  ⟨by decide, by decide,
    c9_quarter_filter_dual_match ("Winter 2025") [c9Row] c9Row (by decide) (by decide)⟩

/-! ## Claim C2 -/

lemma mapExcept_ok {α β : Type} (f : α → Except String β) (l : List α)
    (h : ∀ a ∈ l, (f a).isOk = true) : (mapExcept f l).isOk = true := by
  induction l with
  | nil => rfl
  | cons a as ih =>
    unfold mapExcept
    cases hfa : f a with
    | error e =>
      have h2 := h a (List.mem_cons_self a as)
      rw [hfa] at h2
      simp [Except.isOk, Except.toBool] at h2
    | ok b =>
      cases hm : mapExcept f as with
      | error e =>
        have h3 := ih (fun x hx => h x (List.mem_cons_of_mem a hx))
        rw [hm] at h3
        simp [Except.isOk, Except.toBool] at h3
      | ok bs => rfl

/-- C2 counterexample: a malformed course CSV raises ParserError out of
pd.read_csv to the caller of load_courses_df, and a housing CSV whose price
cell strips to 1.2.3 raises ValueError out of astype(float); neither error
is caught and converted to an advisory plus empty result. -/
theorem c2_counterexample :
    load_courses_df CsvSource.malformed = Except.error ("ParserError")
      ∧ (load_courses_df CsvSource.malformed).isOk = false
      ∧ (housingLoad (HousingSrc.table c2HousingHeaders [c2BadPriceRow])).isOk = false :=
  ⟨rfl, rfl, by decide⟩

/-- C2 amended: the loaders never raise for a missing file (advisory plus
no-data) and the DB loader catches every database error; a parsed course
CSV never raises past the read; but the CSV read itself and the housing
price coercion can raise, so the housing table case needs every price cell
to coerce cleanly. -/
theorem c2_loaders_no_raise_except_bad_csv
    (m q : String) (db : DbSource) (chs : List String) (crows : List RawCourseRow)
    (hhs : List String) (hrows : List RawListingRow)
    (hok : ∀ r ∈ hrows,
      (parsePriceCell (housingPriceText (hhs.map (fun c => pyLower (pyStrip c))) r)).isOk
        = true) :
    (load_courses_from_db m q db).isOk = true
      ∧ load_courses_df CsvSource.absent = Except.ok none
      ∧ (load_courses_df (CsvSource.table chs crows)).isOk = true
      ∧ housingLoad HousingSrc.absent = Except.ok none
      ∧ (housingLoad (HousingSrc.table hhs hrows)).isOk = true := by
  refine ⟨?_, rfl, ?_, rfl, ?_⟩
  · cases db with
    | absent => rfl
    | broken =>
      by_cases hd : (lookupList MAJOR_DEPARTMENTS m).isEmpty
      · simp [load_courses_from_db, hd, Except.isOk, Except.toBool]
      · simp [load_courses_from_db, dbQueryRun, hd, Except.isOk, Except.toBool]
    | ok rows =>
      by_cases hd : (lookupList MAJOR_DEPARTMENTS m).isEmpty
      · simp [load_courses_from_db, hd, Except.isOk, Except.toBool]
      · simp [load_courses_from_db, dbQueryRun, hd, Except.isOk, Except.toBool]
  · show (load_courses_df (CsvSource.table chs crows)).isOk = true
    simp only [load_courses_df]
    split
    · rfl
    · rfl
  · show (housingLoadTable (hhs.map (fun c => pyLower (pyStrip c))) hrows).isOk = true
    have h2 := mapExcept_ok
      (fun r => parsePriceCell (housingPriceText (hhs.map (fun c => pyLower (pyStrip c))) r))
      hrows hok
    unfold housingLoadTable
    cases hm : mapExcept
        (fun r => parsePriceCell (housingPriceText (hhs.map (fun c => pyLower (pyStrip c))) r))
        hrows with
    | error e =>
      rw [hm] at h2
      simp [Except.isOk, Except.toBool] at h2
    | ok nums => rfl

/-- Witness for the amended C2 at concrete sources: a broken database, a
missing CSV, a parsed course CSV and a housing CSV whose single price cell
coerces cleanly. -/
theorem c2_witness :
    (∀ r ∈ [c2GoodPriceRow],
      (parsePriceCell
          (housingPriceText (c2HousingHeaders.map (fun c => pyLower (pyStrip c))) r)).isOk
        = true)
      ∧ ((load_courses_from_db ("Computer Science") ("Winter 2025") DbSource.broken).isOk
            = true
          ∧ load_courses_df CsvSource.absent = Except.ok none
          ∧ (load_courses_df (CsvSource.table c2CourseHeaders [c2CourseRow])).isOk = true
          ∧ housingLoad HousingSrc.absent = Except.ok none
          ∧ (housingLoad (HousingSrc.table c2HousingHeaders [c2GoodPriceRow])).isOk = true) :=
  ⟨by decide,
    c2_loaders_no_raise_except_bad_csv ("Computer Science") ("Winter 2025") DbSource.broken
      c2CourseHeaders [c2CourseRow] c2HousingHeaders [c2GoodPriceRow] (by decide)⟩

/-! ## Claim C10 -/

/-- C10: for every non-empty query, the database-backed course search of
lines 335-344 returns at most 50 rows, whatever the size of the matching
set, because of the LIMIT 50 of the query. -/
theorem c10_search_limit_50 (q : String) (courses : List CourseRow) (hq : q ≠ "") :
    (searchCourses q courses).length ≤ 50 := by
  unfold searchCourses
  rw [List.length_take]
  exact min_le_left _ _

/-- Witness for C10 at a concrete query and table. -/
theorem c10_witness :
    (("Probability" : String) ≠ "")
      ∧ (searchCourses ("Probability") [c10Course]).length ≤ 50 :=
  ⟨by decide, c10_search_limit_50 ("Probability") [c10Course] (by decide)⟩
